import Mathlib

/-!
Verification of the DeepReg custom layer library
(`src/model/network/layer.py`): a shallow embedding of the layers
`Deconv3D`, `Resize3d`, `Conv3dBlock`, `Deconv3dBlock`,
`AdditiveUpSampling`, `DownSampleResnetBlock`, `UpSampleResnetBlock` and
`DDFSummand`, together with theorems about their shape arithmetic,
dataflow and error behaviour.

Tensors are modelled as a shape (list of dimension extents) together with
flat row-major data, valued in `ℚ`.  The TensorFlow / `layer_util`
primitives the file delegates to (convolutions, batch normalisation,
activation, pooling, 2-D image resize) are modelled as an abstract record
of functions (`Prims`): the layer code composes them without inspecting
their values, so every theorem below is quantified over the primitives
(with an explicit shape contract where a claim needs one).  Python
runtime exceptions are modelled by `Except String` with one distinct
message per `raise` site.
-/

namespace DeepReg

/-- A tensor: a shape together with flat row-major data.  Entries of
`data` at indices at or beyond the shape's element count are irrelevant;
operations below only ever read in-range entries of their inputs. -/
structure Tensor where
  shape : List Nat
  data : Nat → ℚ

instance : Inhabited Tensor :=
  ⟨⟨[], fun _ => 0⟩⟩

/-- Pointwise addition (`+` on tensors of equal shape; the layer code
only ever adds tensors of identical shape, so no broadcasting is
modelled). -/
instance : Add Tensor :=
  ⟨fun a b => ⟨a.shape, fun i => a.data i + b.data i⟩⟩

theorem Tensor.add_def (a b : Tensor) :
    a + b = ⟨a.shape, fun i => a.data i + b.data i⟩ := rfl

/-- Error message of `tf.reshape` when the requested shape holds a
different number of elements. -/
def reshapeErrMsg : String :=
  "InvalidArgumentError: reshape would change the number of elements"

/-- `tf.reshape`: row-major data is kept, only the shape changes; the
element counts must agree. -/
def tfReshape (t : Tensor) (s : List Nat) : Except String Tensor :=
  if t.shape.prod = s.prod then .ok ⟨s, t.data⟩ else .error reshapeErrMsg

/-- The external primitives (TensorFlow ops and the `layer_util`
factory), treated as a black box: the layer file only composes them.
`conv3d`, `batch_norm`, `relu` and `max_pool3d` model
`layer_util.conv3d`, `layer_util.batch_norm`, `layer_util.act("relu")`
and `layer_util.max_pool3d`; `conv3d_transpose` models
`tf.keras.layers.Conv3DTranspose`; `resize_image` models
`tf.image.resize` with a named method. -/
structure Prims where
  conv3d : (filters kernel_size strides : Nat) → (padding : String) → Tensor → Tensor
  conv3d_transpose : (filters : Nat) → (kernel_size strides : List Nat) →
    (padding : String) → (output_padding : Option (List Int)) → Tensor → Tensor
  batch_norm : (training : Option Bool) → Tensor → Tensor
  relu : Tensor → Tensor
  max_pool3d : (pool_size strides : Nat × Nat × Nat) → Tensor → Tensor
  resize_image : (method : String) → (height width : Nat) → Tensor → Tensor

/-- Modelled from the spec: `layer_util` itself is not among the source
files; per the spec it is a "primitive factory" supplying configured
primitives.  Call sites in `layer.py` that omit the kernel-size or
padding argument use the factory's defaults, represented by these two
constants; no claim depends on their values. -/
def layerUtilDefaultKernel : Nat := 3

/-- Modelled from the spec: default padding of the `layer_util.conv3d`
factory (see `layerUtilDefaultKernel`). -/
def layerUtilDefaultPadding : String := "same"

/-- A Python argument that is either an `int` or a list of ints
(`kernel_size` / `strides` of `Deconv3D`). -/
inductive IntOrList where
  | int (n : Nat)
  | list (l : List Nat)
deriving DecidableEq

/-- `Deconv3D.build` broadcasts a scalar kernel size / stride to all
three spatial axes; a list is kept as is. -/
def IntOrList.broadcast3 : IntOrList → List Nat
  | .int n => [n, n, n]
  | .list l => l

/-! ## Deconv3D -/

/-- `Deconv3D` after `__init__`: the stored configuration. -/
structure Deconv3D where
  _filters : Nat
  _output_shape : Option (List Nat)
  _kernel_size : IntOrList
  _strides : IntOrList
  _padding : String

/-- The state `Deconv3D.build` derives from the configuration and the
observed input shape: the broadcast kernel size and strides, the padding
mode, and the output padding handed to `Conv3DTranspose`. -/
structure Deconv3DBuilt where
  _kernel_size : List Nat
  _strides : List Nat
  _padding : String
  _output_padding : Option (List Int)
deriving DecidableEq

/-- `Deconv3D.build`: broadcast scalar kernel size / strides to three
axes; when `output_shape` is supplied, force `padding = "same"` and
compute, for each spatial axis `i`,
`output_padding[i] = output_shape[i] - ((input_shape[1+i] - 1) * strides[i] + kernel_size[i] - 2 * (kernel_size[i] // 2))`;
when it is absent, keep the caller's padding and leave the output
padding unset. -/
def Deconv3D.build (l : Deconv3D) (input_shape : List Nat) : Deconv3DBuilt :=
  let ks := l._kernel_size.broadcast3
  let ss := l._strides.broadcast3
  match l._output_shape with
  | none => ⟨ks, ss, l._padding, none⟩
  | some os =>
      ⟨ks, ss, "same",
        some ((List.range 3).map fun i =>
          (os.getD i 0 : Int)
            - (((input_shape.getD (1 + i) 0 : Int) - 1) * (ss.getD i 0 : Int)
                + (ks.getD i 0 : Int) - 2 * ((ks.getD i 0 / 2 : Nat) : Int)))⟩

/-- `Deconv3D.call`: in Keras, `build` runs on the first observed input
shape, then the stored `Conv3DTranspose` primitive is applied. -/
def Deconv3D.call (P : Prims) (l : Deconv3D) (inputs : Tensor) : Tensor :=
  let b := l.build inputs.shape
  P.conv3d_transpose l._filters b._kernel_size b._strides b._padding b._output_padding inputs

/-- Claim C1: with a supplied `output_shape`, `Deconv3D.build` forces
`padding = "same"` whatever padding the constructor received, and the
output padding on each spatial axis `i < 3` is
`output_shape[i] - ((input_shape[1+i] - 1) * strides[i] + kernel_size[i] - 2 * (kernel_size[i] // 2))`
(kernel size and strides after scalar broadcast); with `output_shape =
None` the constructor's padding is kept and the output padding stays
`None`. -/
theorem deconv3d_build_output_padding (l : Deconv3D) (input_shape : List Nat) :
    (∀ os, l._output_shape = some os →
      (l.build input_shape)._padding = "same" ∧
      ∃ op, (l.build input_shape)._output_padding = some op ∧ op.length = 3 ∧
        ∀ i, i < 3 → op.getD i 0 =
          (os.getD i 0 : Int)
            - (((input_shape.getD (1 + i) 0 : Int) - 1) * (l._strides.broadcast3.getD i 0 : Int)
                + (l._kernel_size.broadcast3.getD i 0 : Int)
                - 2 * ((l._kernel_size.broadcast3.getD i 0 / 2 : Nat) : Int))) ∧
    (l._output_shape = none →
      (l.build input_shape)._padding = l._padding ∧
      (l.build input_shape)._output_padding = none) := by
  constructor
  · intro os hos
    have hb : (l.build input_shape)._output_padding =
        some ((List.range 3).map fun i =>
          (os.getD i 0 : Int)
            - (((input_shape.getD (1 + i) 0 : Int) - 1) * (l._strides.broadcast3.getD i 0 : Int)
                + (l._kernel_size.broadcast3.getD i 0 : Int)
                - 2 * ((l._kernel_size.broadcast3.getD i 0 / 2 : Nat) : Int))) := by
      simp [Deconv3D.build, hos]
    refine ⟨by simp [Deconv3D.build, hos], _, hb, by simp, ?_⟩
    intro i hi
    interval_cases i <;> simp
  · intro hnone
    exact ⟨by simp [Deconv3D.build, hnone], by simp [Deconv3D.build, hnone]⟩

/-- Witness for C1 at concrete configurations: a `Deconv3D` with
`output_shape = [4, 4, 4]`, scalar kernel size 3, scalar stride 1 and
constructor padding `"valid"`, built at input shape `[1, 2, 2, 2, 8]`,
yields padding `"same"` and output padding `[2, 2, 2]`; one with
`output_shape = None` keeps padding `"valid"` and no output padding. -/
theorem deconv3d_build_output_padding_witness :
    ((Deconv3D.mk 8 (some [4, 4, 4]) (.int 3) (.int 1) "valid").build
        [1, 2, 2, 2, 8])._padding = "same" ∧
    (∃ op, ((Deconv3D.mk 8 (some [4, 4, 4]) (.int 3) (.int 1) "valid").build
        [1, 2, 2, 2, 8])._output_padding = some op ∧ op.length = 3 ∧
      ∀ i, i < 3 → op.getD i 0 =
        ((([4, 4, 4] : List Nat).getD i 0 : Int)
          - (((([1, 2, 2, 2, 8] : List Nat).getD (1 + i) 0 : Int) - 1)
                * ((IntOrList.int 1).broadcast3.getD i 0 : Int)
              + ((IntOrList.int 3).broadcast3.getD i 0 : Int)
              - 2 * (((IntOrList.int 3).broadcast3.getD i 0 / 2 : Nat) : Int)))) ∧
    ((Deconv3D.mk 8 none (.int 3) (.int 1) "valid").build
        [1, 2, 2, 2, 8])._padding = "valid" ∧
    ((Deconv3D.mk 8 none (.int 3) (.int 1) "valid").build
        [1, 2, 2, 2, 8])._output_padding = none := by
  refine ⟨?_, ?_, ?_, ?_⟩
  · exact ((deconv3d_build_output_padding _ _).1 _ rfl).1
  · exact ((deconv3d_build_output_padding _ _).1 _ rfl).2
  · exact ((deconv3d_build_output_padding
      (Deconv3D.mk 8 none (.int 3) (.int 1) "valid") [1, 2, 2, 2, 8]).2 rfl).1
  · exact ((deconv3d_build_output_padding
      (Deconv3D.mk 8 none (.int 3) (.int 1) "valid") [1, 2, 2, 2, 8]).2 rfl).2

/-! ## Resize3d -/

/-- `Resize3d` after `__init__`: target spatial size `[out_dim1,
out_dim2, out_dim3]` and the resize method (default bilinear). -/
structure Resize3d where
  _size : List Nat
  _method : String

/-- `tf.image.ResizeMethod.BILINEAR`, the default `method` of
`Resize3d`. -/
def bilinear : String := "bilinear"

/-- Shape contract of `tf.image.resize`: on a 4-D batch of images
`[n, h0, w0, c]` with target size `[h, w]` it returns a tensor of shape
`[n, h, w, c]`. -/
def ResizeImageSpec (r : String → Nat → Nat → Tensor → Tensor) : Prop :=
  ∀ method h w t n h0 w0 c, t.shape = [n, h0, w0, c] →
    (r method h w t).shape = [n, h, w, c]

/-- `Resize3d.call`: TensorFlow has no 3-D resize, so the source resizes
twice — merge axes 0 and 1, resize dims 2 and 3, split axis 0 back while
merging axes 3 and 4, resize dims 1 and 2, and reshape to the final 5-D
shape.  Each `tf.reshape` step can fail (element-count mismatch), hence
`Except`. -/
def Resize3d.call (P : Prims) (l : Resize3d) (inputs : Tensor) : Except String Tensor :=
  -- merge axis 0 and 1; [batch * dim1, dim2, dim3, channels]
  (tfReshape inputs
    [inputs.shape.getD 0 0 * inputs.shape.getD 1 0, inputs.shape.getD 2 0,
     inputs.shape.getD 3 0, inputs.shape.getD 4 0]).bind fun output1 =>
  -- resize dim2 and dim3; [batch * dim1, out_dim2, out_dim3, channels]
  let output2 := P.resize_image l._method (l._size.getD 1 0) (l._size.getD 2 0) output1
  -- split axis 0 and merge axis 3 and 4; [batch, dim1, out_dim2, out_dim3 * channels]
  (tfReshape output2
    [inputs.shape.getD 0 0, inputs.shape.getD 1 0, l._size.getD 1 0,
     l._size.getD 2 0 * inputs.shape.getD 4 0]).bind fun output3 =>
  -- resize dim1 and dim2; [batch, out_dim1, out_dim2, out_dim3 * channels]
  let output4 := P.resize_image l._method (l._size.getD 0 0) (l._size.getD 1 0) output3
  -- reshape; [batch, out_dim1, out_dim2, out_dim3, channels]
  tfReshape output4
    [inputs.shape.getD 0 0, l._size.getD 0 0, l._size.getD 1 0, l._size.getD 2 0,
     inputs.shape.getD 4 0]

/-- Helper: on a 5-D input with a 3-element target size and a
contract-satisfying 2-D resize primitive, `Resize3d.call` succeeds with
a tensor of the target shape (shared by several claims below). -/
theorem resize3d_call_ok (P : Prims) (l : Resize3d) (inputs : Tensor)
    (b d1 d2 d3 c s0 s1 s2 : Nat)
    (hP : ResizeImageSpec P.resize_image)
    (hin : inputs.shape = [b, d1, d2, d3, c]) (hsz : l._size = [s0, s1, s2]) :
    ∃ d, Resize3d.call P l inputs = .ok ⟨[b, s0, s1, s2, c], d⟩ := by
  have h1 : tfReshape inputs [b * d1, d2, d3, c] =
      .ok ⟨[b * d1, d2, d3, c], inputs.data⟩ := by
    unfold tfReshape
    rw [hin, if_pos (by simp [List.prod_cons, Nat.mul_assoc])]
  have hr1 : (P.resize_image l._method s1 s2 ⟨[b * d1, d2, d3, c], inputs.data⟩).shape
      = [b * d1, s1, s2, c] := hP _ _ _ _ _ _ _ _ rfl
  have h2 : tfReshape (P.resize_image l._method s1 s2 ⟨[b * d1, d2, d3, c], inputs.data⟩)
      [b, d1, s1, s2 * c] =
      .ok ⟨[b, d1, s1, s2 * c],
        (P.resize_image l._method s1 s2 ⟨[b * d1, d2, d3, c], inputs.data⟩).data⟩ := by
    unfold tfReshape
    rw [hr1, if_pos (by simp [List.prod_cons, Nat.mul_assoc])]
  have hr2 : (P.resize_image l._method s0 s1
      ⟨[b, d1, s1, s2 * c],
        (P.resize_image l._method s1 s2 ⟨[b * d1, d2, d3, c], inputs.data⟩).data⟩).shape
      = [b, s0, s1, s2 * c] := hP _ _ _ _ _ _ _ _ rfl
  have h3 : tfReshape (P.resize_image l._method s0 s1
      ⟨[b, d1, s1, s2 * c],
        (P.resize_image l._method s1 s2 ⟨[b * d1, d2, d3, c], inputs.data⟩).data⟩)
      [b, s0, s1, s2, c] =
      .ok ⟨[b, s0, s1, s2, c],
        (P.resize_image l._method s0 s1
          ⟨[b, d1, s1, s2 * c],
            (P.resize_image l._method s1 s2
              ⟨[b * d1, d2, d3, c], inputs.data⟩).data⟩).data⟩ := by
    unfold tfReshape
    rw [hr2, if_pos (by simp [List.prod_cons, Nat.mul_assoc])]
  refine ⟨(P.resize_image l._method s0 s1
      ⟨[b, d1, s1, s2 * c],
        (P.resize_image l._method s1 s2 ⟨[b * d1, d2, d3, c], inputs.data⟩).data⟩).data, ?_⟩
  unfold Resize3d.call
  rw [hin, hsz]
  show ((tfReshape inputs [b * d1, d2, d3, c]).bind fun output1 => _) = _
  rw [h1]
  simp only [Except.bind]
  show ((tfReshape (P.resize_image l._method s1 s2 ⟨[b * d1, d2, d3, c], inputs.data⟩)
    [b, d1, s1, s2 * c]).bind fun output3 => _) = _
  rw [h2]
  simp only [Except.bind]
  show (tfReshape (P.resize_image l._method s0 s1
      ⟨[b, d1, s1, s2 * c],
        (P.resize_image l._method s1 s2 ⟨[b * d1, d2, d3, c], inputs.data⟩).data⟩)
      [b, s0, s1, s2, c]) = _
  rw [h3]

/-- Claim C2: on a 5-D input `[b, d1, d2, d3, c]` with target size
`[s0, s1, s2]`, `Resize3d.call` succeeds and returns a tensor of shape
`[b, s0, s1, s2, c]`: the three spatial axes equal the configured size
whatever the input's spatial extents were, and batch and channel counts
are preserved. -/
theorem resize3d_call_shape (P : Prims) (l : Resize3d) (inputs : Tensor)
    (b d1 d2 d3 c s0 s1 s2 : Nat)
    (hP : ResizeImageSpec P.resize_image)
    (hin : inputs.shape = [b, d1, d2, d3, c]) (hsz : l._size = [s0, s1, s2]) :
    (Resize3d.call P l inputs).map Tensor.shape = .ok [b, s0, s1, s2, c] := by
  obtain ⟨d, hd⟩ := resize3d_call_ok P l inputs b d1 d2 d3 c s0 s1 s2 hP hin hsz
  rw [hd]
  rfl

/-- Two tensors are equal when their shapes and data agree. -/
theorem Tensor.eq_of {a b : Tensor} (h1 : a.shape = b.shape) (h2 : a.data = b.data) :
    a = b := by
  cases a; cases b; cases h1; cases h2; rfl

/-- The two-stage 3-D resize, written from the spec's description: merge
batch and axis 1 into a single leading axis and resize `(dim2, dim3)` to
`(size[1], size[2])`; split the merged leading axis back into `(batch,
dim1)` and merge the resized axis 3 with the channel axis into a single
trailing axis, then resize `(dim1, dim2)` to `(size[0], size[1])`; and
finally reshape to `(batch, size[0], size[1], size[2], channels)`.  The
same `method` is used in both stages. -/
def resize3dTwoStageSpec (P : Prims) (method : String) (size : List Nat)
    (inputs : Tensor) : Except String Tensor :=
  let batch := inputs.shape.getD 0 0
  let dim1 := inputs.shape.getD 1 0
  let dim2 := inputs.shape.getD 2 0
  let dim3 := inputs.shape.getD 3 0
  let channels := inputs.shape.getD 4 0
  (tfReshape inputs [batch * dim1, dim2, dim3, channels]).bind fun merged =>
  let stage1 := P.resize_image method (size.getD 1 0) (size.getD 2 0) merged
  (tfReshape stage1 [batch, dim1, size.getD 1 0, size.getD 2 0 * channels]).bind fun remerged =>
  let stage2 := P.resize_image method (size.getD 0 0) (size.getD 1 0) remerged
  tfReshape stage2 [batch, size.getD 0 0, size.getD 1 0, size.getD 2 0, channels]

/-- Claim C7: `Resize3d.call` implements the 3-D resize as exactly the
two sequential 2-D resizes described by the spec — merge batch with dim1
and resize `(dim2, dim3)` to `(size[1], size[2])`, then split the
leading axis and merge dim3 with the channels and resize `(dim1, dim2)`
to `(size[0], size[1])`, then reshape to the 5-D target — applying the
configured method identically in both stages. -/
theorem resize3d_call_two_stage (P : Prims) (l : Resize3d) (inputs : Tensor) :
    Resize3d.call P l inputs = resize3dTwoStageSpec P l._method l._size inputs := rfl

/-- A trivial concrete 2-D resize primitive satisfying the shape
contract of `tf.image.resize` (used to instantiate witnesses): it
returns an all-zero tensor of the contracted shape. -/
def zeroResizeImage (_method : String) (h w : Nat) (t : Tensor) : Tensor :=
  ⟨[t.shape.getD 0 0, h, w, t.shape.getD 3 0], fun _ => 0⟩

theorem zeroResizeImage_spec : ResizeImageSpec zeroResizeImage := by
  intro method h w t n h0 w0 c ht
  simp [zeroResizeImage, ht]

/-- A concrete primitive record used to instantiate witnesses: every
primitive other than the 2-D resize is the identity. -/
def trivialPrims : Prims where
  conv3d := fun _ _ _ _ t => t
  conv3d_transpose := fun _ _ _ _ _ t => t
  batch_norm := fun _ t => t
  relu := fun t => t
  max_pool3d := fun _ _ t => t
  resize_image := zeroResizeImage

/-- Witness for C2 at a concrete input: resizing a `[1, 2, 3, 4, 5]`
tensor to size `[6, 7, 8]` yields shape `[1, 6, 7, 8, 5]`. -/
theorem resize3d_call_shape_witness :
    (Resize3d.call trivialPrims ⟨[6, 7, 8], bilinear⟩
      ⟨[1, 2, 3, 4, 5], fun _ => 0⟩).map Tensor.shape = .ok [1, 6, 7, 8, 5] :=
  resize3d_call_shape trivialPrims _ _ 1 2 3 4 5 6 7 8 zeroResizeImage_spec rfl rfl

/-! ## AdditiveUpSampling -/

/-- Group `k` of `tf.split(t, num_or_size_splits=num, axis=4)` on a 5-D
tensor: its channel axis holds the `g = C / num` consecutive channels
`k*g .. (k+1)*g - 1` of `t`; flat indices are row-major, so flat index
`idx` addresses row `idx / g`, channel `idx % g`. -/
def splitGroup (t : Tensor) (num k : Nat) : Tensor :=
  ⟨t.shape.take 4 ++ [t.shape.getD 4 0 / num],
   fun idx => t.data (idx / (t.shape.getD 4 0 / num) * t.shape.getD 4 0
     + k * (t.shape.getD 4 0 / num) + idx % (t.shape.getD 4 0 / num))⟩

/-- `tf.split(t, num_or_size_splits=num, axis=4)`: the list of `num`
channel groups.  The caller (`AdditiveUpSampling.call`) guards
divisibility of the channel count by `num` before this runs. -/
def tfSplitAxis4 (t : Tensor) (num : Nat) : List Tensor :=
  (List.range num).map (splitGroup t num)

/-- `tf.stack(ts, axis=5)` for equal-shaped 5-D tensors: a new trailing
axis indexes the stacked tensors; in row-major flat indexing the new
axis varies fastest. -/
def tfStackAxis5 (ts : List Tensor) : Tensor :=
  ⟨(ts.headD default).shape ++ [ts.length],
   fun idx => (ts.getD (idx % ts.length) default).data (idx / ts.length)⟩

/-- `tf.reduce_sum(t, axis=5)` on a 6-D tensor: sum over the trailing
axis, which disappears from the shape. -/
def tfReduceSumLastAxis (t : Tensor) : Tensor :=
  ⟨t.shape.dropLast,
   fun idx => ((List.range (t.shape.getLastD 0)).map
     (fun k => t.data (idx * t.shape.getLastD 0 + k))).sum⟩

/-- Written from the spec's words: partition the channel axis (axis 4)
into `num` contiguous equal-sized groups of `C / num` channels each and
sum the groups elementwise. -/
def groupChannelSum (t : Tensor) (num : Nat) : Tensor :=
  ⟨t.shape.take 4 ++ [t.shape.getD 4 0 / num],
   fun idx => ((List.range num).map
     (fun k => t.data (idx / (t.shape.getD 4 0 / num) * t.shape.getD 4 0
       + k * (t.shape.getD 4 0 / num) + idx % (t.shape.getD 4 0 / num)))).sum⟩

/-- Splitting the channel axis into `num` groups, stacking them on a new
trailing axis and summing that axis away is exactly the elementwise sum
of the `num` contiguous channel groups. -/
theorem stack_split_reduce_eq_groupSum (t : Tensor) (num : Nat) (hnum : 0 < num) :
    tfReduceSumLastAxis (tfStackAxis5 (tfSplitAxis4 t num)) = groupChannelSum t num := by
  obtain ⟨m, rfl⟩ : ∃ m, num = m + 1 := ⟨num - 1, (Nat.succ_pred_eq_of_pos hnum).symm⟩
  have hlen : (tfSplitAxis4 t (m + 1)).length = m + 1 := by
    simp [tfSplitAxis4]
  have hhead : (tfSplitAxis4 t (m + 1)).headD default = splitGroup t (m + 1) 0 := by
    rw [tfSplitAxis4, List.range_succ_eq_map]
    rfl
  have hstack_shape : (tfStackAxis5 (tfSplitAxis4 t (m + 1))).shape
      = (t.shape.take 4 ++ [t.shape.getD 4 0 / (m + 1)]) ++ [m + 1] := by
    show ((tfSplitAxis4 t (m + 1)).headD default).shape
      ++ [(tfSplitAxis4 t (m + 1)).length] = _
    rw [hhead, hlen]
    rfl
  have hgetD : ∀ k, k < m + 1 →
      (tfSplitAxis4 t (m + 1)).getD k default = splitGroup t (m + 1) k := by
    intro k hk
    rw [tfSplitAxis4, List.getD, List.get?_map, List.get?_range hk]
    rfl
  have hn : (tfStackAxis5 (tfSplitAxis4 t (m + 1))).shape.getLastD 0 = m + 1 := by
    rw [hstack_shape]
    simp [List.getLastD_concat]
  apply Tensor.eq_of
  · show (tfStackAxis5 (tfSplitAxis4 t (m + 1))).shape.dropLast = _
    rw [hstack_shape, List.dropLast_concat]
    rfl
  · funext idx
    show ((List.range ((tfStackAxis5 (tfSplitAxis4 t (m + 1))).shape.getLastD 0)).map
        (fun k => (tfStackAxis5 (tfSplitAxis4 t (m + 1))).data
          (idx * (tfStackAxis5 (tfSplitAxis4 t (m + 1))).shape.getLastD 0 + k))).sum = _
    rw [hn]
    refine congrArg List.sum (List.map_congr_left ?_)
    intro k hk
    have hk' : k < m + 1 := List.mem_range.mp hk
    show ((tfSplitAxis4 t (m + 1)).getD
        ((idx * (m + 1) + k) % (tfSplitAxis4 t (m + 1)).length) default).data
        ((idx * (m + 1) + k) / (tfSplitAxis4 t (m + 1)).length) = _
    rw [hlen, Nat.mul_comm idx (m + 1), Nat.mul_add_mod, Nat.mod_eq_of_lt hk',
      Nat.mul_add_div (Nat.succ_pos m), Nat.div_eq_of_lt hk', Nat.add_zero,
      hgetD k hk']
    rfl

/-- The `__init__` state of `AdditiveUpSampling`: the stride and the
`Resize3d` sub-layer built on the target `output_shape` (with the
default bilinear method). -/
structure AdditiveUpSampling where
  _stride : Nat
  _resize3d : Resize3d

/-- `AdditiveUpSampling.__init__`: store the stride and build
`Resize3d(size=output_shape)`. -/
def AdditiveUpSampling.init (output_shape : List Nat) (stride : Nat) : AdditiveUpSampling :=
  ⟨stride, ⟨output_shape, bilinear⟩⟩

/-- The `ValueError` raised by `AdditiveUpSampling.call`. -/
def channelStrideErrMsg : String :=
  "ValueError: The channel dimension can not be divided by the stride"

/-- `AdditiveUpSampling.call`: reject (with a `ValueError`) an observed
channel count not divisible by the stride, then resize spatially via the
`Resize3d` sub-layer, split the channel axis into `stride` groups, stack
the groups on a new trailing axis and sum that axis away. -/
def AdditiveUpSampling.call (P : Prims) (l : AdditiveUpSampling) (inputs : Tensor) :
    Except String Tensor :=
  if inputs.shape.getD 4 0 % l._stride ≠ 0 then .error channelStrideErrMsg
  else
    (Resize3d.call P l._resize3d inputs).bind fun output =>
    .ok (tfReduceSumLastAxis (tfStackAxis5 (tfSplitAxis4 output l._stride)))

/-- Claim C5: on a 5-D input, `AdditiveUpSampling.call` raises the
`ValueError` exactly when the observed channel count (axis 4 of the
input shape) is not divisible by the configured stride; and when it is
not divisible the error is raised for every choice of primitives, i.e.
before any resizing or summation is performed. -/
theorem additive_upsampling_valueerror_iff (P : Prims) (l : AdditiveUpSampling)
    (inputs : Tensor) (b d1 d2 d3 c s0 s1 s2 : Nat)
    (hP : ResizeImageSpec P.resize_image)
    (hin : inputs.shape = [b, d1, d2, d3, c])
    (hsz : l._resize3d._size = [s0, s1, s2]) :
    (AdditiveUpSampling.call P l inputs = .error channelStrideErrMsg ↔ c % l._stride ≠ 0)
    ∧ (∀ Q : Prims, c % l._stride ≠ 0 →
        AdditiveUpSampling.call Q l inputs = .error channelStrideErrMsg) := by
  have herr : ∀ Q : Prims, c % l._stride ≠ 0 →
      AdditiveUpSampling.call Q l inputs = .error channelStrideErrMsg := by
    intro Q hne
    unfold AdditiveUpSampling.call
    rw [hin]
    show (if c % l._stride ≠ 0 then _ else _) = _
    rw [if_pos hne]
  refine ⟨⟨?_, herr P⟩, herr⟩
  intro hcall
  by_contra hdvd
  have hdvd' : c % l._stride = 0 := hdvd
  obtain ⟨d, hd⟩ := resize3d_call_ok P l._resize3d inputs b d1 d2 d3 c s0 s1 s2 hP hin hsz
  have hok : AdditiveUpSampling.call P l inputs =
      .ok (tfReduceSumLastAxis (tfStackAxis5
        (tfSplitAxis4 ⟨[b, s0, s1, s2, c], d⟩ l._stride))) := by
    unfold AdditiveUpSampling.call
    rw [hin]
    show (if c % l._stride ≠ 0 then _ else _) = _
    rw [if_neg (not_not_intro hdvd'), hd]
    rfl
  rw [hok] at hcall
  exact Except.noConfusion hcall

/-- Witness for C5 at a concrete input: an `AdditiveUpSampling` with
stride 2 on a tensor with 3 channels (shape `[1, 1, 1, 1, 3]`) raises
the `ValueError`. -/
theorem additive_upsampling_valueerror_iff_witness :
    AdditiveUpSampling.call trivialPrims (AdditiveUpSampling.init [2, 2, 2] 2)
      ⟨[1, 1, 1, 1, 3], fun _ => 0⟩ = .error channelStrideErrMsg :=
  ((additive_upsampling_valueerror_iff trivialPrims _ _ 1 1 1 1 3 2 2 2
    zeroResizeImage_spec rfl rfl).1).mpr (by decide)

/-- Claim C6: on a 5-D input `[b, d1, d2, d3, c]` whose channel count
`c` is divisible by the (positive) stride, `AdditiveUpSampling.call`
equals: resize the input to the target spatial shape via `Resize3d`,
then partition the channel axis into `stride` contiguous equal groups
and sum the groups elementwise; the output shape is
`[b, s0, s1, s2, c / stride]`. -/
theorem additive_upsampling_call_eq (P : Prims) (l : AdditiveUpSampling)
    (inputs : Tensor) (b d1 d2 d3 c s0 s1 s2 : Nat)
    (hP : ResizeImageSpec P.resize_image)
    (hin : inputs.shape = [b, d1, d2, d3, c])
    (hsz : l._resize3d._size = [s0, s1, s2])
    (hstride : 0 < l._stride) (hdvd : c % l._stride = 0) :
    AdditiveUpSampling.call P l inputs =
      (Resize3d.call P l._resize3d inputs).map (fun r => groupChannelSum r l._stride) ∧
    (AdditiveUpSampling.call P l inputs).map Tensor.shape =
      .ok [b, s0, s1, s2, c / l._stride] := by
  obtain ⟨d, hd⟩ := resize3d_call_ok P l._resize3d inputs b d1 d2 d3 c s0 s1 s2 hP hin hsz
  have hok : AdditiveUpSampling.call P l inputs =
      .ok (tfReduceSumLastAxis (tfStackAxis5
        (tfSplitAxis4 ⟨[b, s0, s1, s2, c], d⟩ l._stride))) := by
    unfold AdditiveUpSampling.call
    rw [hin]
    show (if c % l._stride ≠ 0 then _ else _) = _
    rw [if_neg (not_not_intro hdvd), hd]
    rfl
  constructor
  · rw [hok, hd, stack_split_reduce_eq_groupSum _ _ hstride]
    rfl
  · rw [hok, stack_split_reduce_eq_groupSum _ _ hstride]
    rfl

/-- Witness for C6 at a concrete input: an `AdditiveUpSampling` with
stride 2 on a `[1, 1, 1, 1, 4]` tensor and target size `[2, 2, 2]`
produces a tensor of shape `[1, 2, 2, 2, 2]` that is the grouped channel
sum of the resized tensor. -/
theorem additive_upsampling_call_eq_witness :
    AdditiveUpSampling.call trivialPrims (AdditiveUpSampling.init [2, 2, 2] 2)
      ⟨[1, 1, 1, 1, 4], fun _ => 0⟩ =
      (Resize3d.call trivialPrims (AdditiveUpSampling.init [2, 2, 2] 2)._resize3d
        ⟨[1, 1, 1, 1, 4], fun _ => 0⟩).map (fun r => groupChannelSum r 2) ∧
    (AdditiveUpSampling.call trivialPrims (AdditiveUpSampling.init [2, 2, 2] 2)
      ⟨[1, 1, 1, 1, 4], fun _ => 0⟩).map Tensor.shape = .ok [1, 2, 2, 2, 2] :=
  additive_upsampling_call_eq trivialPrims _ _ 1 1 1 1 4 2 2 2
    zeroResizeImage_spec rfl rfl (by decide) (by decide)

/-! ## DDFSummand -/

/-- `DDFSummand` after `__init__`: the configured target `output_shape`
(spatial, 3 elements by intent), the convolutional projection
(`layer_util.conv3d(filters=filters, strides=1)`) and the `Resize3d`
sub-layer on `output_shape`. -/
structure DDFSummand where
  _output_shape : List Nat
  _conv3d : Tensor → Tensor
  _resize3d : Resize3d

/-- `DDFSummand.__init__`. -/
def DDFSummand.init (P : Prims) (output_shape : List Nat) (filters : Nat) : DDFSummand :=
  ⟨output_shape,
   P.conv3d filters layerUtilDefaultKernel 1 layerUtilDefaultPadding,
   ⟨output_shape, bilinear⟩⟩

/-- `DDFSummand.call`: apply the convolutional projection; if the
input's (full) tensor shape differs from the configured `output_shape`
list, resize the projection via `Resize3d`, otherwise return the
projection unchanged.  The comparison is the source's
`inputs.shape != self._output_shape`: a full tensor shape against the
configured list. -/
def DDFSummand.call (P : Prims) (l : DDFSummand) (inputs : Tensor) : Except String Tensor :=
  let output := l._conv3d inputs
  if inputs.shape ≠ l._output_shape then Resize3d.call P l._resize3d output
  else .ok output

/-- Claim C3: `DDFSummand.call` first applies the convolutional
projection and resizes it exactly when the input's full tensor shape
differs from the configured `output_shape`; when the two compare equal
the projection is returned without resizing. -/
theorem ddf_summand_resize_iff (P : Prims) (l : DDFSummand) (inputs : Tensor) :
    (inputs.shape ≠ l._output_shape →
      DDFSummand.call P l inputs = Resize3d.call P l._resize3d (l._conv3d inputs)) ∧
    (inputs.shape = l._output_shape →
      DDFSummand.call P l inputs = .ok (l._conv3d inputs)) := by
  constructor <;> intro h <;> unfold DDFSummand.call
  · rw [if_pos h]
  · rw [if_neg (not_not_intro h)]

/-- Witness for C3 at concrete inputs: with `output_shape = [2, 2, 2]`
and a `[1, 1, 1, 1, 3]` input the projection is resized; with
`output_shape = [1, 1, 1, 1, 3]` (comparing equal to the input's full
shape) it is returned unresized. -/
theorem ddf_summand_resize_iff_witness :
    DDFSummand.call trivialPrims (DDFSummand.init trivialPrims [2, 2, 2] 3)
        ⟨[1, 1, 1, 1, 3], fun _ => 0⟩ =
      Resize3d.call trivialPrims (DDFSummand.init trivialPrims [2, 2, 2] 3)._resize3d
        ((DDFSummand.init trivialPrims [2, 2, 2] 3)._conv3d ⟨[1, 1, 1, 1, 3], fun _ => 0⟩) ∧
    DDFSummand.call trivialPrims (DDFSummand.init trivialPrims [1, 1, 1, 1, 3] 3)
        ⟨[1, 1, 1, 1, 3], fun _ => 0⟩ =
      .ok ((DDFSummand.init trivialPrims [1, 1, 1, 1, 3] 3)._conv3d
        ⟨[1, 1, 1, 1, 3], fun _ => 0⟩) :=
  ⟨(ddf_summand_resize_iff trivialPrims (DDFSummand.init trivialPrims [2, 2, 2] 3)
      ⟨[1, 1, 1, 1, 3], fun _ => 0⟩).1 (by decide),
   (ddf_summand_resize_iff trivialPrims (DDFSummand.init trivialPrims [1, 1, 1, 1, 3] 3)
      ⟨[1, 1, 1, 1, 3], fun _ => 0⟩).2 rfl⟩

/-- Claim C4: for a 5-D input and the intended 3-element spatial
`output_shape`, the guard `inputs.shape != self._output_shape` is always
true (a 5-element shape never equals a 3-element list), so
`DDFSummand.call` always takes the resize branch and the output's
spatial dimensions equal the configured `output_shape` — even when the
input's spatial shape already matches it. -/
theorem ddf_summand_always_resizes (P : Prims) (inputs : Tensor)
    (filters b d1 d2 d3 c o0 o1 o2 f : Nat)
    (hP : ResizeImageSpec P.resize_image)
    (hin : inputs.shape = [b, d1, d2, d3, c])
    (hconv : ((DDFSummand.init P [o0, o1, o2] filters)._conv3d inputs).shape
      = [b, d1, d2, d3, f]) :
    DDFSummand.call P (DDFSummand.init P [o0, o1, o2] filters) inputs =
      Resize3d.call P (DDFSummand.init P [o0, o1, o2] filters)._resize3d
        ((DDFSummand.init P [o0, o1, o2] filters)._conv3d inputs) ∧
    (DDFSummand.call P (DDFSummand.init P [o0, o1, o2] filters) inputs).map Tensor.shape =
      .ok [b, o0, o1, o2, f] := by
  have hne : inputs.shape ≠ (DDFSummand.init P [o0, o1, o2] filters)._output_shape := by
    rw [hin]
    show [b, d1, d2, d3, c] ≠ [o0, o1, o2]
    simp
  have hcall : DDFSummand.call P (DDFSummand.init P [o0, o1, o2] filters) inputs =
      Resize3d.call P (DDFSummand.init P [o0, o1, o2] filters)._resize3d
        ((DDFSummand.init P [o0, o1, o2] filters)._conv3d inputs) := by
    unfold DDFSummand.call
    rw [if_pos hne]
  obtain ⟨d, hd⟩ := resize3d_call_ok P (DDFSummand.init P [o0, o1, o2] filters)._resize3d
    ((DDFSummand.init P [o0, o1, o2] filters)._conv3d inputs)
    b d1 d2 d3 f o0 o1 o2 hP hconv rfl
  refine ⟨hcall, ?_⟩
  rw [hcall, hd]
  rfl

/-- Witness for C4 at a concrete input: a `DDFSummand` with
`output_shape = [1, 1, 1]` fed a `[1, 1, 1, 1, 3]` tensor whose spatial
shape already is `(1, 1, 1)` still resizes, producing shape
`[1, 1, 1, 1, 3]` through the resize path. -/
theorem ddf_summand_always_resizes_witness :
    DDFSummand.call trivialPrims (DDFSummand.init trivialPrims [1, 1, 1] 3)
        ⟨[1, 1, 1, 1, 3], fun _ => 0⟩ =
      Resize3d.call trivialPrims (DDFSummand.init trivialPrims [1, 1, 1] 3)._resize3d
        ((DDFSummand.init trivialPrims [1, 1, 1] 3)._conv3d ⟨[1, 1, 1, 1, 3], fun _ => 0⟩) ∧
    (DDFSummand.call trivialPrims (DDFSummand.init trivialPrims [1, 1, 1] 3)
        ⟨[1, 1, 1, 1, 3], fun _ => 0⟩).map Tensor.shape = .ok [1, 1, 1, 1, 3] :=
  ddf_summand_always_resizes trivialPrims ⟨[1, 1, 1, 1, 3], fun _ => 0⟩
    3 1 1 1 1 3 1 1 1 3 zeroResizeImage_spec rfl rfl

/-! ## Conv3dBlock / Deconv3dBlock -/

/-- `Conv3dBlock` after `__init__`: a configured convolution, a batch
normalisation and a ReLU activation from the primitive factory. -/
structure Conv3dBlock where
  _conv3d : Tensor → Tensor
  _batch_norm : Option Bool → Tensor → Tensor
  _relu : Tensor → Tensor

/-- `Conv3dBlock.__init__(filters, kernel_size, strides, padding)`. -/
def Conv3dBlock.init (P : Prims) (filters kernel_size strides : Nat)
    (padding : String) : Conv3dBlock :=
  ⟨P.conv3d filters kernel_size strides padding, P.batch_norm, P.relu⟩

/-- `Conv3dBlock.call`: convolution, then batch normalisation (with the
training flag propagated), then ReLU. -/
def Conv3dBlock.call (l : Conv3dBlock) (inputs : Tensor) (training : Option Bool) : Tensor :=
  l._relu (l._batch_norm training (l._conv3d inputs))

/-- `Deconv3dBlock` after `__init__`: a `Deconv3D`, a batch
normalisation and a ReLU activation. -/
structure Deconv3dBlock where
  _deconv3d : Deconv3D
  _batch_norm : Option Bool → Tensor → Tensor
  _relu : Tensor → Tensor

/-- `Deconv3dBlock.__init__(filters, output_shape, kernel_size, strides,
padding)`. -/
def Deconv3dBlock.init (P : Prims) (filters : Nat) (output_shape : Option (List Nat))
    (kernel_size strides : IntOrList) (padding : String) : Deconv3dBlock :=
  ⟨⟨filters, output_shape, kernel_size, strides, padding⟩, P.batch_norm, P.relu⟩

/-- `Deconv3dBlock.call`: transposed convolution (built on the first
observed input shape), then batch normalisation, then ReLU. -/
def Deconv3dBlock.call (P : Prims) (l : Deconv3dBlock) (inputs : Tensor)
    (training : Option Bool) : Tensor :=
  l._relu (l._batch_norm training (Deconv3D.call P l._deconv3d inputs))

/-! ## DownSampleResnetBlock -/

/-- `DownSampleResnetBlock` after `__init__`: two conv blocks, a bare
convolution with batch norm and ReLU for the residual refinement, a
2×2×2 max pooling, and a stride-2 conv block for the non-pooling
downsampling path. -/
structure DownSampleResnetBlock where
  _use_pooling : Bool
  _conv3d_block1 : Conv3dBlock
  _conv3d_block2 : Conv3dBlock
  _conv3d : Tensor → Tensor
  _batch_norm : Option Bool → Tensor → Tensor
  _relu : Tensor → Tensor
  _max_pool3d : Tensor → Tensor
  _conv3d_block3 : Conv3dBlock

/-- `DownSampleResnetBlock.__init__(filters, kernel_size, use_pooling)`:
conv blocks at stride 1, a stride-1 convolution, max pooling with pool
size `(2, 2, 2)` and strides `(2, 2, 2)`, and a conv block at stride 2. -/
def DownSampleResnetBlock.init (P : Prims) (filters kernel_size : Nat)
    (use_pooling : Bool) : DownSampleResnetBlock :=
  ⟨use_pooling,
   Conv3dBlock.init P filters kernel_size 1 "same",
   Conv3dBlock.init P filters kernel_size 1 "same",
   P.conv3d filters kernel_size 1 layerUtilDefaultPadding,
   P.batch_norm, P.relu,
   P.max_pool3d (2, 2, 2) (2, 2, 2),
   Conv3dBlock.init P filters kernel_size 2 "same"⟩

/-- `DownSampleResnetBlock.call`: two conv blocks, a residual add
through conv + batch norm + ReLU, then pooling or a stride-2 conv block;
returns the downsampled tensor together with the pre-downsampling
residual `h0`. -/
def DownSampleResnetBlock.call (l : DownSampleResnetBlock) (inputs : Tensor)
    (training : Option Bool) : Tensor × Tensor :=
  let h0 := l._conv3d_block1.call inputs training
  let r1 := l._conv3d_block2.call h0 training
  let r2 := l._relu (l._batch_norm training (l._conv3d r1) + h0)
  let h1 := if l._use_pooling then l._max_pool3d r2 else l._conv3d_block3.call r2 training
  (h1, h0)

/-- Claim C8: for every input `x`, `DownSampleResnetBlock.call` returns
exactly the pair `(h1, h0)` with `h0` the first conv block's output,
`r1` the second conv block applied to `h0`, `r2 = ReLU(BatchNorm(Conv(r1)) + h0)`
(residual add with `h0`), and `h1` either the 2×2×2 max pooling of `r2`
(when `use_pooling`) or a stride-2 conv block applied to `r2`; the
second component of the returned pair is always the pre-downsampling
value `h0`, whichever path is configured. -/
theorem downsample_resnet_call (P : Prims) (filters kernel_size : Nat)
    (use_pooling : Bool) (x : Tensor) (training : Option Bool) :
    (DownSampleResnetBlock.init P filters kernel_size use_pooling).call x training =
      (let h0 := (Conv3dBlock.init P filters kernel_size 1 "same").call x training
       let r1 := (Conv3dBlock.init P filters kernel_size 1 "same").call h0 training
       let r2 := P.relu (P.batch_norm training
         (P.conv3d filters kernel_size 1 layerUtilDefaultPadding r1) + h0)
       ((if use_pooling then P.max_pool3d (2, 2, 2) (2, 2, 2) r2
         else (Conv3dBlock.init P filters kernel_size 2 "same").call r2 training), h0)) :=
  rfl

/-! ## UpSampleResnetBlock -/

/-- A Python `call`-argument that is either a single tensor or a list of
tensors. -/
inductive TensorInput where
  | single (t : Tensor)
  | list (ts : List Tensor)

/-- A Python `build`-argument that is either a single tensor shape or a
list of shapes. -/
inductive ShapeInput where
  | single (s : List Nat)
  | list (ss : List (List Nat))

/-- The `ValueError` raised by `UpSampleResnetBlock.build` and
`UpSampleResnetBlock.call` on a malformed input. -/
def arityErrMsg : String :=
  "ValueError: UpSampleResnetBlock accepts an input, a list of tensors [input_nonskip, input_skip]"

/-- The `TypeError` Python would raise if the additive-upsampling
sub-layer were used without having been built. -/
def noneCallableErrMsg : String :=
  "TypeError: NoneType object is not callable"

/-- `UpSampleResnetBlock` after `__init__`: configuration plus the
eagerly built sub-layers (a conv block with the source's defaults
`kernel_size=3, strides=1, padding=\x22same\x22`, a stride-1 convolution,
batch norm, ReLU).  The deconv block and the additive upsampling are
built lazily, once the skip shape is known (see
`UpSampleResnetBlock.build`). -/
structure UpSampleResnetBlock where
  _filters : Nat
  _use_additive_upsampling : Bool
  _conv3d_block : Conv3dBlock
  _conv3d : Tensor → Tensor
  _batch_norm : Option Bool → Tensor → Tensor
  _relu : Tensor → Tensor

/-- `UpSampleResnetBlock.__init__(filters, use_additive_upsampling)`. -/
def UpSampleResnetBlock.init (P : Prims) (filters : Nat)
    (use_additive_upsampling : Bool) : UpSampleResnetBlock :=
  ⟨filters, use_additive_upsampling,
   Conv3dBlock.init P filters 3 1 "same",
   P.conv3d filters layerUtilDefaultKernel 1 layerUtilDefaultPadding,
   P.batch_norm, P.relu⟩

/-- `UpSampleResnetBlock` after `build`: the configuration together with
the shape-dependent sub-layers. -/
structure UpSampleResnetBlockBuilt where
  base : UpSampleResnetBlock
  _deconv3d_block : Deconv3dBlock
  _additive_upsampling : Option AdditiveUpSampling

/-- `UpSampleResnetBlock.build`: reject anything that is not a
two-element list of shapes, then take `output_shape = input_shape[1][1:4]`
(the skip tensor's spatial shape) and build the stride-2 deconv block
and, when enabled, the additive upsampling with its default stride 2. -/
def UpSampleResnetBlock.build (P : Prims) (l : UpSampleResnetBlock)
    (input_shape : ShapeInput) : Except String UpSampleResnetBlockBuilt :=
  match input_shape with
  | .single _ => .error arityErrMsg
  | .list ss =>
    if ss.length ≠ 2 then .error arityErrMsg
    else
      let output_shape := ((ss.getD 1 []).drop 1).take 3
      .ok ⟨l,
        Deconv3dBlock.init P l._filters (some output_shape) (.int 3) (.int 2) "same",
        if l._use_additive_upsampling
          then some (AdditiveUpSampling.init output_shape 2) else none⟩

/-- `UpSampleResnetBlock.call` (on the built layer): reject anything
that is not a two-element list of tensors, then
`h0 = Deconv3dBlock(nonskip)`, optionally `h0 += AdditiveUpSampling(nonskip)`,
`r1 = h0 + skip`, `r2 = Conv3dBlock(h0)`, and return
`ReLU(BatchNorm(Conv(r2)) + r1)`. -/
def UpSampleResnetBlockBuilt.call (P : Prims) (l : UpSampleResnetBlockBuilt)
    (inputs : TensorInput) (training : Option Bool) : Except String Tensor :=
  match inputs with
  | .single _ => .error arityErrMsg
  | .list ts =>
    if ts.length ≠ 2 then .error arityErrMsg
    else
      let inputs_nonskip := ts.getD 0 default
      let inputs_skip := ts.getD 1 default
      let h0 := Deconv3dBlock.call P l._deconv3d_block inputs_nonskip training
      (if l.base._use_additive_upsampling then
        match l._additive_upsampling with
        | some au => (AdditiveUpSampling.call P au inputs_nonskip).map (fun a => h0 + a)
        | none => .error noneCallableErrMsg
      else .ok h0).bind fun h0' =>
      let r1 := h0' + inputs_skip
      let r2 := l.base._conv3d_block.call h0' training
      .ok (l.base._relu (l.base._batch_norm training (l.base._conv3d r2) + r1))

/-- Helper: `tfReshape` either succeeds or fails with the reshape
message. -/
theorem tfReshape_cases (t : Tensor) (s : List Nat) :
    tfReshape t s = .ok ⟨s, t.data⟩ ∨ tfReshape t s = .error reshapeErrMsg := by
  unfold tfReshape
  by_cases h : t.shape.prod = s.prod
  · rw [if_pos h]
    exact Or.inl rfl
  · rw [if_neg h]
    exact Or.inr rfl

/-- Helper: `Resize3d.call` either succeeds or fails with the reshape
message. -/
theorem resize3d_call_cases (P : Prims) (l : Resize3d) (t : Tensor) :
    (∃ v, Resize3d.call P l t = .ok v) ∨ Resize3d.call P l t = .error reshapeErrMsg := by
  unfold Resize3d.call
  rcases tfReshape_cases t [t.shape.getD 0 0 * t.shape.getD 1 0, t.shape.getD 2 0,
      t.shape.getD 3 0, t.shape.getD 4 0] with h1 | h1 <;> rw [h1]
  · simp only [Except.bind]
    rcases tfReshape_cases
        (P.resize_image l._method (l._size.getD 1 0) (l._size.getD 2 0) ⟨_, t.data⟩)
        [t.shape.getD 0 0, t.shape.getD 1 0, l._size.getD 1 0,
          l._size.getD 2 0 * t.shape.getD 4 0] with h2 | h2 <;> rw [h2]
    · simp only [Except.bind]
      rcases tfReshape_cases
          (P.resize_image l._method (l._size.getD 0 0) (l._size.getD 1 0) ⟨_, _⟩)
          [t.shape.getD 0 0, l._size.getD 0 0, l._size.getD 1 0, l._size.getD 2 0,
            t.shape.getD 4 0] with h3 | h3 <;> rw [h3]
      · exact Or.inl ⟨_, rfl⟩
      · exact Or.inr rfl
    · exact Or.inr rfl
  · exact Or.inr rfl

/-- Helper: `AdditiveUpSampling.call` either succeeds or fails with the
divisibility `ValueError` or the reshape message. -/
theorem additive_upsampling_call_cases (P : Prims) (l : AdditiveUpSampling) (t : Tensor) :
    (∃ v, AdditiveUpSampling.call P l t = .ok v) ∨
    AdditiveUpSampling.call P l t = .error channelStrideErrMsg ∨
    AdditiveUpSampling.call P l t = .error reshapeErrMsg := by
  unfold AdditiveUpSampling.call
  by_cases h : t.shape.getD 4 0 % l._stride ≠ 0
  · rw [if_pos h]
    exact Or.inr (Or.inl rfl)
  · rw [if_neg h]
    rcases resize3d_call_cases P l._resize3d t with ⟨v, hv⟩ | hv <;> rw [hv]
    · exact Or.inl ⟨_, rfl⟩
    · exact Or.inr (Or.inr rfl)

/-- Claim C9: `UpSampleResnetBlock` raises its `ValueError` at build and
at call for any input that is not a list of exactly two elements — a
single tensor is rejected, as is a list of any other length — while a
two-element list passes the check: `build` then succeeds, and `call`
never produces the arity `ValueError`. -/
theorem upsample_resnet_arity (P : Prims) (l : UpSampleResnetBlock)
    (training : Option Bool) :
    (∀ s, UpSampleResnetBlock.build P l (.single s) = .error arityErrMsg) ∧
    (∀ ss, ss.length ≠ 2 →
      UpSampleResnetBlock.build P l (.list ss) = .error arityErrMsg) ∧
    (∀ ss, ss.length = 2 →
      ∃ blt, UpSampleResnetBlock.build P l (.list ss) = .ok blt) ∧
    (∀ blt : UpSampleResnetBlockBuilt, ∀ t,
      UpSampleResnetBlockBuilt.call P blt (.single t) training = .error arityErrMsg) ∧
    (∀ blt : UpSampleResnetBlockBuilt, ∀ ts, ts.length ≠ 2 →
      UpSampleResnetBlockBuilt.call P blt (.list ts) training = .error arityErrMsg) ∧
    (∀ blt : UpSampleResnetBlockBuilt, ∀ ts, ts.length = 2 →
      UpSampleResnetBlockBuilt.call P blt (.list ts) training ≠ .error arityErrMsg) := by
  refine ⟨fun s => rfl, ?_, ?_, fun blt t => rfl, ?_, ?_⟩
  · intro ss hss
    show (if ss.length ≠ 2 then Except.error arityErrMsg else _) = _
    rw [if_pos hss]
  · intro ss hss
    refine ⟨⟨l,
      Deconv3dBlock.init P l._filters (some (((ss.getD 1 []).drop 1).take 3))
        (.int 3) (.int 2) "same",
      if l._use_additive_upsampling
        then some (AdditiveUpSampling.init (((ss.getD 1 []).drop 1).take 3) 2)
        else none⟩, ?_⟩
    show (if ss.length ≠ 2 then Except.error arityErrMsg else _) = _
    rw [if_neg (not_not_intro hss)]
  · intro blt ts hts
    show (if ts.length ≠ 2 then Except.error arityErrMsg else _) = _
    rw [if_pos hts]
  · intro blt ts hts
    show (if ts.length ≠ 2 then Except.error arityErrMsg else _) ≠ _
    rw [if_neg (not_not_intro hts)]
    have hmsg1 : channelStrideErrMsg ≠ arityErrMsg := by decide
    have hmsg2 : reshapeErrMsg ≠ arityErrMsg := by decide
    have hmsg3 : noneCallableErrMsg ≠ arityErrMsg := by decide
    by_cases hadd : blt.base._use_additive_upsampling
    · rw [if_pos hadd]
      cases hau : blt._additive_upsampling with
      | none =>
          intro h
          exact hmsg3 (Except.error.inj h)
      | some au =>
          show ((AdditiveUpSampling.call P au (ts.getD 0 default)).map
              (fun a => Deconv3dBlock.call P blt._deconv3d_block (ts.getD 0 default) training
                + a)).bind _ ≠ _
          rcases additive_upsampling_call_cases P au (ts.getD 0 default)
            with ⟨v, hv⟩ | hv | hv <;> rw [hv] <;>
            simp only [Except.map, Except.bind] <;> intro h
          · exact Except.noConfusion h
          · exact hmsg1 (Except.error.inj h)
          · exact hmsg2 (Except.error.inj h)
    · rw [if_neg hadd]
      intro h
      exact Except.noConfusion h

/-- Witness for C9 at concrete inputs: build rejects a single shape and
a three-element list, accepts a pair of shapes; call rejects a single
tensor and a three-element list, and does not raise the arity error on a
pair. -/
theorem upsample_resnet_arity_witness :
    UpSampleResnetBlock.build trivialPrims (UpSampleResnetBlock.init trivialPrims 4 true)
      (.single [1, 2, 2, 2, 4]) = .error arityErrMsg ∧
    UpSampleResnetBlock.build trivialPrims (UpSampleResnetBlock.init trivialPrims 4 true)
      (.list [[1, 2, 2, 2, 4], [1, 4, 4, 4, 4], [1, 4, 4, 4, 4]]) = .error arityErrMsg ∧
    (∃ blt, UpSampleResnetBlock.build trivialPrims
      (UpSampleResnetBlock.init trivialPrims 4 true)
      (.list [[1, 2, 2, 2, 4], [1, 4, 4, 4, 4]]) = .ok blt) ∧
    UpSampleResnetBlockBuilt.call trivialPrims
      ⟨UpSampleResnetBlock.init trivialPrims 4 true,
        Deconv3dBlock.init trivialPrims 4 (some [4, 4, 4]) (.int 3) (.int 2) "same",
        some (AdditiveUpSampling.init [4, 4, 4] 2)⟩
      (.single ⟨[1, 2, 2, 2, 4], fun _ => 0⟩) none = .error arityErrMsg ∧
    UpSampleResnetBlockBuilt.call trivialPrims
      ⟨UpSampleResnetBlock.init trivialPrims 4 true,
        Deconv3dBlock.init trivialPrims 4 (some [4, 4, 4]) (.int 3) (.int 2) "same",
        some (AdditiveUpSampling.init [4, 4, 4] 2)⟩
      (.list [default, default, default]) none = .error arityErrMsg ∧
    UpSampleResnetBlockBuilt.call trivialPrims
      ⟨UpSampleResnetBlock.init trivialPrims 4 true,
        Deconv3dBlock.init trivialPrims 4 (some [4, 4, 4]) (.int 3) (.int 2) "same",
        some (AdditiveUpSampling.init [4, 4, 4] 2)⟩
      (.list [⟨[1, 2, 2, 2, 4], fun _ => 0⟩, ⟨[1, 4, 4, 4, 4], fun _ => 0⟩]) none
      ≠ .error arityErrMsg := by
  obtain ⟨h1, h2, h3, h4, h5, h6⟩ :=
    upsample_resnet_arity trivialPrims (UpSampleResnetBlock.init trivialPrims 4 true) none
  refine ⟨h1 _, h2 _ (by decide), h3 _ rfl, ?_, ?_, ?_⟩
  · exact (upsample_resnet_arity trivialPrims
      (UpSampleResnetBlock.init trivialPrims 4 true) none).2.2.2.1 _ _
  · exact (upsample_resnet_arity trivialPrims
      (UpSampleResnetBlock.init trivialPrims 4 true) none).2.2.2.2.1 _ _ (by decide)
  · exact (upsample_resnet_arity trivialPrims
      (UpSampleResnetBlock.init trivialPrims 4 true) none).2.2.2.2.2 _ _ rfl

/-- Claim C10: a built `UpSampleResnetBlock` with
`use_additive_upsampling = True` raises the divisibility `ValueError`
whenever the non-skip input tensor's channel count is odd: `build`
creates the additive-upsampling sub-layer with its default stride 2, and
its call-time check applies to the non-skip tensor's channel axis. -/
theorem upsample_resnet_odd_channels_error (P : Prims) (l : UpSampleResnetBlock)
    (hadd : l._use_additive_upsampling = true)
    (ns_shape skip_shape : List Nat) (blt : UpSampleResnetBlockBuilt)
    (hbuild : UpSampleResnetBlock.build P l (.list [ns_shape, skip_shape]) = .ok blt)
    (nonskip skip : Tensor) (training : Option Bool)
    (b d1 d2 d3 c : Nat) (hns : nonskip.shape = [b, d1, d2, d3, c]) (hodd : c % 2 = 1) :
    UpSampleResnetBlockBuilt.call P blt (.list [nonskip, skip]) training =
      .error channelStrideErrMsg := by
  obtain ⟨filters, uadd, cb, cv, bn, rl⟩ := l
  replace hadd : uadd = true := hadd
  subst hadd
  have h : Except.ok
      (⟨⟨filters, true, cb, cv, bn, rl⟩,
        Deconv3dBlock.init P filters (some ((skip_shape.drop 1).take 3))
          (.int 3) (.int 2) "same",
        some (AdditiveUpSampling.init ((skip_shape.drop 1).take 3) 2)⟩ :
        UpSampleResnetBlockBuilt) = .ok blt := hbuild
  have hblt := (Except.ok.inj h).symm
  subst hblt
  have herr : AdditiveUpSampling.call P
      (AdditiveUpSampling.init ((skip_shape.drop 1).take 3) 2) nonskip =
      .error channelStrideErrMsg := by
    unfold AdditiveUpSampling.call
    rw [hns]
    show (if c % 2 ≠ 0 then _ else _) = _
    rw [if_pos (by rw [hodd]; exact one_ne_zero)]
  show ((AdditiveUpSampling.call P
      (AdditiveUpSampling.init ((skip_shape.drop 1).take 3) 2) nonskip).map
      (fun a => Deconv3dBlock.call P
        (Deconv3dBlock.init P filters (some ((skip_shape.drop 1).take 3))
          (.int 3) (.int 2) "same") nonskip training + a)).bind _ = _
  rw [herr]
  rfl

/-- Witness for C10 at a concrete input: the block built for skip shape
`[1, 4, 4, 4, 4]` raises the `ValueError` on a non-skip tensor with 3
(odd) channels. -/
theorem upsample_resnet_odd_channels_error_witness :
    UpSampleResnetBlockBuilt.call trivialPrims
      ⟨UpSampleResnetBlock.init trivialPrims 4 true,
       Deconv3dBlock.init trivialPrims 4 (some [4, 4, 4]) (.int 3) (.int 2) "same",
       some (AdditiveUpSampling.init [4, 4, 4] 2)⟩
      (.list [⟨[1, 2, 2, 2, 3], fun _ => 0⟩, ⟨[1, 4, 4, 4, 4], fun _ => 0⟩]) none =
      .error channelStrideErrMsg :=
  upsample_resnet_odd_channels_error trivialPrims
    (UpSampleResnetBlock.init trivialPrims 4 true) rfl
    [1, 2, 2, 2, 3] [1, 4, 4, 4, 4]
    ⟨UpSampleResnetBlock.init trivialPrims 4 true,
     Deconv3dBlock.init trivialPrims 4 (some [4, 4, 4]) (.int 3) (.int 2) "same",
     some (AdditiveUpSampling.init [4, 4, 4] 2)⟩
    rfl ⟨[1, 2, 2, 2, 3], fun _ => 0⟩ ⟨[1, 4, 4, 4, 4], fun _ => 0⟩ none
    1 2 2 2 3 rfl rfl

end DeepReg
